import Mathlib

/-!
Verification of the multi-tenant schema-routing core of a hospital
management system (Django application).  The definitions below are a
shallow embedding of:

* `tenants/middleware.py` — `HeaderTenantMiddleware.process_request`,
  the thread-local current-tenant helpers, and the list of public URLs;
* `tenants/utils.py` — `get_current_tenant` / `set_current_tenant` /
  `tenant_context` / `create_tenant_schema`;
* `tenants/views.py` — the `activate` / `suspend` / `cancel` lifecycle
  actions of `TenantViewSet`;
* `tenants/management/commands/create_tenant_schema.py` and
  `delete_tenant_schema.py` — the CLI provisioning commands.

Database state (the set of PostgreSQL schemata and the connection's
active search path / tenant pointer) is made explicit and passed by
value; Django ORM lookups (`Tenant.objects.get(...)`) are modelled as
first-match lookups over the persisted tenant list, with `DoesNotExist`
represented by `Option.none`.
-/

namespace HMS

/-- Subscription status choices of `Tenant.SubscriptionStatus`
(`tenants/models.py`): active, trial, suspended, cancelled, expired. -/
inductive SubscriptionStatus where
  | active
  | trial
  | suspended
  | cancelled
  | expired
deriving DecidableEq, Repr

/-- The `Tenant` model (`tenants/models.py`), restricted to the fields the
schema-routing core reads: primary key `id`, unique `code`, unique
`schema_name`, the `is_active` flag and the subscription status. -/
structure Tenant where
  id : Nat
  code : String
  schema_name : String
  is_active : Bool
  subscription_status : SubscriptionStatus
deriving DecidableEq, Repr

/-- The authenticated principal attached to a request
(`request.user`), restricted to the attributes the middleware reads:
`is_authenticated`, the optional `tenant_id` JWT claim, and the optional
`tenant_user` membership whose `.tenant` is a `Tenant` record. -/
structure AuthUser where
  is_authenticated : Bool
  tenant_id : Option Int
  tenant_user : Option Tenant
deriving DecidableEq, Repr

/-- An inbound HTTP request, restricted to what
`HeaderTenantMiddleware.process_request` reads: the path
(`request.path_info`), the raw `X-Tenant-ID` header (absent = `none`),
the user (absent when no authentication middleware ran = `none`), and
the request host used by domain-based resolution. -/
structure Request where
  path_info : String
  x_tenant_id : Option String
  user : Option AuthUser
  host : String
deriving DecidableEq, Repr

/-- The persisted public-schema registry the resolver consults: the
`Tenant` table and the hostname-to-tenant domain table used by the
parent middleware's domain-based resolution. -/
structure Db where
  tenants : List Tenant
  domains : List (String × Tenant)
deriving DecidableEq, Repr

/-- Per-worker mutable connection state: the active schema (search
path) of the shared database connection, the connection's `tenant`
attribute (read by `tenants/utils.py:get_current_tenant`), and the
middleware's thread-local `_thread_locals.tenant`
(`tenants/middleware.py`). -/
structure ConnState where
  schema : String
  tenant : Option Tenant
  thread_tenant : Option Tenant
deriving DecidableEq, Repr

/-- `Tenant.objects.get(id=n)` — first-match lookup by primary key
(ids are unique in the registry); `DoesNotExist` is `none`. -/
def findTenantById (db : Db) (n : Int) : Option Tenant :=
  db.tenants.find? (fun t => (t.id : Int) == n)

/-- `Tenant.objects.get(code=c)` — first-match lookup by the unique
`code` column; `DoesNotExist` is `none`. -/
def findTenantByCode (db : Db) (c : String) : Option Tenant :=
  db.tenants.find? (fun t => t.code == c)

/-- Hostname lookup in the domain table (used by the parent
middleware's domain-based resolution step). -/
def findTenantByDomain (db : Db) (host : String) : Option Tenant :=
  (db.domains.find? (fun p => p.1 == host)).map Prod.snd

/-- A nonempty all-digit character sequence read as a decimal number. -/
def parseDigits (cs : List Char) : Option Nat :=
  if cs ≠ [] ∧ cs.all Char.isDigit then
    some (cs.foldl (fun acc c => acc * 10 + (c.toNat - 48)) 0)
  else none

/-- Python `int(s)` on a decimal string literal: optional surrounding
whitespace, optional sign, then a nonempty digit sequence; any other
shape raises `ValueError`, modelled as `none`. -/
def pyInt (s : String) : Option Int :=
  let cs := ((s.data.dropWhile Char.isWhitespace).reverse.dropWhile Char.isWhitespace).reverse
  match cs with
  | '-' :: rest => (parseDigits rest).map (fun n => -(n : Int))
  | '+' :: rest => (parseDigits rest).map (fun n => (n : Int))
  | rest => (parseDigits rest).map (fun n => (n : Int))

/-- `path.startswith(prefix_str)` — string prefix test, computed over the
character lists so that concrete instances evaluate by reduction. -/
def strStartsWith (s p : String) : Bool :=
  p.data.isPrefixOf s.data

/-- `s.lower()` — lowercasing, computed over the character list. -/
def strToLower (s : String) : String :=
  String.mk (s.data.map Char.toLower)

/-- `tenants/middleware.py:set_current_tenant` — stores the tenant in the
middleware's thread-local slot. -/
def set_current_tenant (t : Tenant) (s : ConnState) : ConnState :=
  { s with thread_tenant := some t }

/-- `tenants/middleware.py:get_current_tenant` — reads the middleware's
thread-local slot. -/
def get_current_tenant (s : ConnState) : Option Tenant :=
  s.thread_tenant

/-- Modelled from the spec: `connection.set_tenant(tenant)` (django-tenants
connection API, not part of this repository) "must switch the active
data-access namespace to the tenant's schema identifier" and records the
tenant on the connection. -/
def connection_set_tenant (t : Tenant) (s : ConnState) : ConnState :=
  { s with tenant := some t, schema := t.schema_name }

/-- Modelled from the spec: `connection.set_schema_to_public()`
(django-tenants connection API, not part of this repository) "must switch
to the public namespace". -/
def set_schema_to_public (s : ConnState) : ConnState :=
  { s with schema := "public" }

/-- `HeaderTenantMiddleware.PUBLIC_SCHEMA_URLS` — path prefixes served
from the public schema, verbatim from `tenants/middleware.py`. -/
def PUBLIC_SCHEMA_URLS : List String :=
  [ "/api/v1/auth/"
  , "/api/v1/core/"
  , "/api/v1/tenants/active-tenants/"
  , "/api/v1/tenants/invitations/accept/"
  , "/admin/"
  , "/api/docs/"
  , "/swagger/"
  , "/redoc/"
  , "/test-public/"
  ]

/-- `any(path.startswith(url) for url in self.PUBLIC_SCHEMA_URLS)`. -/
def isPublicPath (path : String) : Bool :=
  PUBLIC_SCHEMA_URLS.any (fun u => strStartsWith path u)

/-- Outcome of `process_request`: control returned to downstream
handlers (`ok`, i.e. the method returned `None`), or the request failed
with a tenant-not-found client error raised by the domain-resolution
fallback. -/
inductive Outcome where
  | ok
  | tenantNotFound
deriving DecidableEq, Repr

/-- Modelled from the spec: the parent `TenantMainMiddleware.process_request`
(django-tenants, not part of this repository), reached by the final
`super().process_request(request)` call.  Spec step 7: "fall back to
hostname-based domain lookup against TenantDomain; on match, resolve; on
no match → fail the request with a tenant-not-found error", switching the
active namespace to the matched tenant's schema identifier. -/
def process_domain (db : Db) (host : String) (s : ConnState) : ConnState × Outcome :=
  match findTenantByDomain db host with
  | some t => (connection_set_tenant t s, Outcome.ok)
  | none => (s, Outcome.tenantNotFound)

/-- The tail of `process_request` for authenticated users after the JWT
claim lookup has failed: the `tenant_user` membership step, then the
public-schema fallback for authenticated users without a tenant. -/
def process_membership (u : AuthUser) (s : ConnState) : ConnState × Outcome :=
  match u.tenant_user with
  | some t => (connection_set_tenant t (set_current_tenant t s), Outcome.ok)
  | none => (set_schema_to_public s, Outcome.ok)

/-- The tail of `process_request` after the `X-Tenant-ID` header step has
fallen through: the development `TEST`-code fallback, then the JWT-claim
and membership steps for authenticated users, then the parent
domain-based resolution.  Parameterized by the only request attributes
this part of the code reads: `request.user` and the request host. -/
def process_after_header (db : Db) (user : Option AuthUser) (host : String)
    (s : ConnState) : ConnState × Outcome :=
  match findTenantByCode db "TEST" with
  | some t => (connection_set_tenant t (set_current_tenant t s), Outcome.ok)
  | none =>
    match user with
    | some u =>
      if u.is_authenticated then
        match u.tenant_id with
        | some n =>
          if n ≠ 0 then
            match findTenantById db n with
            | some t => (connection_set_tenant t (set_current_tenant t s), Outcome.ok)
            | none => process_membership u s
          else process_membership u s
        | none => process_membership u s
      else process_domain db host s
    | none => process_domain db host s

/-- `HeaderTenantMiddleware.process_request` (`tenants/middleware.py`):
public-URL check, then the `X-Tenant-ID` header step (empty header value
is falsy in Python and is skipped; a malformed value raises `ValueError`
inside `int(...)` and is caught; an unknown id raises `DoesNotExist` and
is caught — all three fall through), then `process_after_header`. -/
def process_request (db : Db) (req : Request) (s : ConnState) : ConnState × Outcome :=
  if isPublicPath req.path_info then
    (set_schema_to_public s, Outcome.ok)
  else
    match req.x_tenant_id with
    | some raw =>
      if raw ≠ "" then
        match pyInt raw with
        | some n =>
          match findTenantById db n with
          | some t => (connection_set_tenant t (set_current_tenant t s), Outcome.ok)
          | none => process_after_header db req.user req.host s
        | none => process_after_header db req.user req.host s
      else process_after_header db req.user req.host s
    | none => process_after_header db req.user req.host s

/-- End-of-request transition of this middleware: `HeaderTenantMiddleware`
defines only `process_request` — there is no `process_response` or
`process_exception` hook anywhere in `tenants/middleware.py`, and no
other middleware of the project resets the connection schema or the
thread-local tenant — so the connection state is left unchanged when a
request finishes, on every exit path. -/
def end_of_request (s : ConnState) : ConnState := s

/-! ### Lifecycle actions (`tenants/views.py`, `TenantViewSet`) -/

/-- `TenantViewSet.activate`: unconditionally sets
`subscription_status = ACTIVE` and `is_active = True` and saves; the
prior status is not consulted. -/
def TenantViewSet.activate (t : Tenant) : Tenant :=
  { t with subscription_status := SubscriptionStatus.active, is_active := true }

/-- `TenantViewSet.suspend`: unconditionally sets
`subscription_status = SUSPENDED` and `is_active = False` and saves. -/
def TenantViewSet.suspend (t : Tenant) : Tenant :=
  { t with subscription_status := SubscriptionStatus.suspended, is_active := false }

/-- `TenantViewSet.cancel`: unconditionally sets
`subscription_status = CANCELLED` and `is_active = False` and saves. -/
def TenantViewSet.cancel (t : Tenant) : Tenant :=
  { t with subscription_status := SubscriptionStatus.cancelled, is_active := false }

/-- The allowed-transition table of the spec (§4.3): trial→active,
trial→expired, active→suspended, active→cancelled, suspended→active,
suspended→cancelled, and any→cancelled; expired and cancelled are
terminal.  Stated from the spec's words, for comparison with the code's
lifecycle actions. -/
def specAllowedTransition : SubscriptionStatus → SubscriptionStatus → Bool
  | SubscriptionStatus.trial, SubscriptionStatus.active => true
  | SubscriptionStatus.trial, SubscriptionStatus.expired => true
  | SubscriptionStatus.active, SubscriptionStatus.suspended => true
  | SubscriptionStatus.suspended, SubscriptionStatus.active => true
  | SubscriptionStatus.expired, _ => false
  | SubscriptionStatus.cancelled, _ => false
  | _, SubscriptionStatus.cancelled => true
  | _, _ => false

/-! ### Schema provisioning (`tenants/utils.py` and the management
commands) -/

/-- PostgreSQL-side state touched by the provisioning code: the set of
schemata (`information_schema.schemata`), the per-schema tables, and the
connection's `search_path`.  SQL statements issued through
`cursor.execute` are interpreted against this state. -/
structure PgState where
  schemata : List String
  tables : List (String × String)
  search_path : String
deriving DecidableEq, Repr

/-- `CREATE SCHEMA IF NOT EXISTS name`: a no-op when the schema already
exists, otherwise adds it. -/
def createSchemaIfNotExists (st : PgState) (name : String) : PgState :=
  if name ∈ st.schemata then st
  else { st with schemata := st.schemata ++ [name] }

/-- `CREATE TABLE IF NOT EXISTS tbl` issued while `search_path` points at
`schema`: a no-op when the table already exists in that schema. -/
def createTableIfNotExists (st : PgState) (schema tbl : String) : PgState :=
  if (schema, tbl) ∈ st.tables then st
  else { st with tables := st.tables ++ [(schema, tbl)] }

/-- `DROP SCHEMA IF EXISTS name CASCADE`: removes the schema and all the
tables it contains. -/
def dropSchemaCascade (st : PgState) (name : String) : PgState :=
  { st with
    schemata := st.schemata.filter (fun s => s ≠ name)
    tables := st.tables.filter (fun p => p.1 ≠ name) }

/-- `tenants/utils.py:create_tenant_schema(tenant)`: CREATE SCHEMA IF NOT
EXISTS, SET search_path to the schema, CREATE TABLE IF NOT EXISTS
`tenants_tenantuser`, SET search_path back to public; returns the schema
name.  Every statement is conditional, so the function always completes
normally. -/
def create_tenant_schema (st : PgState) (t : Tenant) : PgState × String :=
  let schema_name := t.schema_name
  let st := createSchemaIfNotExists st schema_name
  let st := { st with search_path := schema_name }
  let st := createTableIfNotExists st schema_name "tenants_tenantuser"
  let st := { st with search_path := "public" }
  (st, schema_name)

/-- Result of the `create_tenant_schema` management command
(`tenants/management/commands/create_tenant_schema.py`): the tenant id
does not exist, the schema already exists (early return), or the schema
and its tables were created. -/
inductive CreateCmdResult where
  | noTenant
  | alreadyExists
  | created
deriving DecidableEq, Repr

/-- `create_tenant_schema` `Command.handle`: look the tenant up by id
(early return on `DoesNotExist`); query `information_schema.schemata`
and return early when the schema already exists; otherwise CREATE
SCHEMA, SET search_path, run the migrations for the schema (external
machinery, modelled as creating the schema's migrated tables), and reset
the search path to public. -/
def cmd_create_handle (db : Db) (st : PgState) (tenant_id : Int) : PgState × CreateCmdResult :=
  match findTenantById db tenant_id with
  | none => (st, CreateCmdResult.noTenant)
  | some t =>
    let schema_name := t.schema_name
    if schema_name ∈ st.schemata then (st, CreateCmdResult.alreadyExists)
    else
      let st := { st with schemata := st.schemata ++ [schema_name] }
      let st := { st with search_path := schema_name }
      let st := createTableIfNotExists st schema_name "migrated"
      let st := { st with search_path := "public" }
      (st, CreateCmdResult.created)

/-- Result of the `delete_tenant_schema` management command: the tenant
id does not exist, the operation was cancelled at the confirmation
prompt, or the schema was dropped. -/
inductive DeleteCmdResult where
  | noTenant
  | cancelled
  | dropped
deriving DecidableEq, Repr

/-- `delete_tenant_schema` `Command.handle`
(`tenants/management/commands/delete_tenant_schema.py`): look the tenant
up by id; when `--force` was NOT passed, prompt for confirmation
(`confirm_input` is the operator's answer) and cancel unless the answer,
lowercased, is exactly `yes`; then DROP SCHEMA IF EXISTS ... CASCADE.
When `--force` was passed the prompt is skipped entirely and
`confirm_input` is never read. -/
def cmd_delete_handle (db : Db) (st : PgState) (tenant_id : Int)
    (force : Bool) (confirm_input : String) : PgState × DeleteCmdResult :=
  match findTenantById db tenant_id with
  | none => (st, DeleteCmdResult.noTenant)
  | some t =>
    let schema_name := t.schema_name
    if ¬ force then
      if strToLower confirm_input ≠ "yes" then (st, DeleteCmdResult.cancelled)
      else (dropSchemaCascade st schema_name, DeleteCmdResult.dropped)
    else (dropSchemaCascade st schema_name, DeleteCmdResult.dropped)

/-! ### Request-scoped tenant context (`tenants/utils.py`) -/

/-- `tenants/utils.py:get_current_tenant` — reads `connection.tenant`.
(Distinct from the thread-local getter in `tenants/middleware.py`.) -/
def utils_get_current_tenant (s : ConnState) : Option Tenant :=
  s.tenant

/-- `tenants/utils.py:set_current_tenant` — assigns `connection.tenant`
and switches the connection schema to the tenant's `schema_name`, or to
`public` when the tenant is `None`. -/
def utils_set_current_tenant (t : Option Tenant) (s : ConnState) : ConnState :=
  match t with
  | some t => { s with tenant := some t, schema := t.schema_name }
  | none => { s with tenant := none, schema := "public" }

/-- `tenants/utils.py:tenant_context(tenant)` run around a body: at
construction `old_tenant = get_current_tenant()` is captured; `__enter__`
calls `set_current_tenant(tenant)`; the body runs (returning a value or
raising, modelled as `Except`); `__exit__` calls
`set_current_tenant(old_tenant)` on both the normal and the exception
path (Python invokes `__exit__` in either case, and it does not suppress
the exception). -/
def tenant_context_run {ε α : Type} (t : Option Tenant)
    (body : ConnState → ConnState × Except ε α) (s : ConnState) :
    ConnState × Except ε α :=
  let old := utils_get_current_tenant s
  let s1 := utils_set_current_tenant t s
  let r := body s1
  (utils_set_current_tenant old r.1, r.2)

/-! ### Concrete fixtures used by witnesses and counterexamples -/

/-- An active tenant with id 1. -/
def tenantOne : Tenant :=
  { id := 1, code := "ONE", schema_name := "tenant_one", is_active := true,
    subscription_status := SubscriptionStatus.active }

/-- A suspended tenant with id 2. -/
def tenantSuspendedTwo : Tenant :=
  { id := 2, code := "TWO", schema_name := "tenant_two", is_active := false,
    subscription_status := SubscriptionStatus.suspended }

/-- An expired tenant with id 3. -/
def tenantExpiredThree : Tenant :=
  { id := 3, code := "THREE", schema_name := "tenant_three", is_active := false,
    subscription_status := SubscriptionStatus.expired }

/-- A registry with two tenants, no `TEST`-code tenant and no domains. -/
def sampleDb : Db :=
  { tenants := [tenantOne, tenantSuspendedTwo], domains := [] }

/-- The connection state at worker start: public schema, no tenant. -/
def publicState : ConnState :=
  { schema := "public", tenant := none, thread_tenant := none }

/-- A connection state left behind by an earlier request that resolved
tenant 2. -/
def staleState : ConnState :=
  { schema := "tenant_two", tenant := some tenantSuspendedTwo,
    thread_tenant := some tenantSuspendedTwo }

/-- A non-public request carrying the valid header `X-Tenant-ID: 1`. -/
def reqOne : Request :=
  { path_info := "/api/v1/patients/", x_tenant_id := some "1", user := none,
    host := "one.example" }

/-- A non-public request carrying the valid header `X-Tenant-ID: 2`
(the suspended tenant). -/
def reqTwo : Request :=
  { path_info := "/api/v1/patients/", x_tenant_id := some "2", user := none,
    host := "two.example" }

/-- A public-path request (`/api/v1/auth/login/`) carrying an invalid
tenant header. -/
def reqPub : Request :=
  { path_info := "/api/v1/auth/login/", x_tenant_id := some "999", user := none,
    host := "one.example" }

/-- A non-public request with a malformed (non-numeric) tenant header. -/
def reqBad : Request :=
  { path_info := "/api/v1/patients/", x_tenant_id := some "abc", user := none,
    host := "one.example" }

/-- The spec's worked example: `X-Tenant-ID: 7` where tenant 7 does not
exist, on `/api/v1/patients/`, with no auth token and no matching
domain. -/
def reqSeven : Request :=
  { path_info := "/api/v1/patients/", x_tenant_id := some "7", user := none,
    host := "nohost.example" }

/-- A database state holding only the public schema. -/
def emptyPg : PgState :=
  { schemata := ["public"], tables := [], search_path := "public" }

/-- A database state holding the public schema and tenant 1's schema. -/
def samplePg : PgState :=
  { schemata := ["public", "tenant_one"], tables := [], search_path := "public" }

/-- Classification of a resolver stage's behaviour: it resolves a fixed
tenant (with or without updating the thread-local slot), falls back to
the public schema, or fails the request leaving the state untouched —
and in each case the branch taken does not depend on the incoming
connection state. -/
abbrev ResolverShape (f : ConnState → ConnState × Outcome) : Prop :=
  (∃ t, ∀ s, f s = (connection_set_tenant t (set_current_tenant t s), Outcome.ok)) ∨
  (∀ s, f s = (set_schema_to_public s, Outcome.ok)) ∨
  (∃ t, ∀ s, f s = (connection_set_tenant t s, Outcome.ok)) ∨
  (∀ s, f s = (s, Outcome.tenantNotFound))

/-! ### Shape lemmas: the resolver's result, classified by branch. -/

/-- Transport of `ResolverShape` along a pointwise equation. -/
theorem resolverShape_of_eq {f g : ConnState → ConnState × Outcome}
    (hred : ∀ s, f s = g s) (hg : ResolverShape g) : ResolverShape f := by
  rcases hg with ⟨t, ht⟩ | hpub | ⟨t, ht⟩ | herr
  · exact Or.inl ⟨t, fun s => (hred s).trans (ht s)⟩
  · exact Or.inr (Or.inl fun s => (hred s).trans (hpub s))
  · exact Or.inr (Or.inr (Or.inl ⟨t, fun s => (hred s).trans (ht s)⟩))
  · exact Or.inr (Or.inr (Or.inr fun s => (hred s).trans (herr s)))

/-- The domain-resolution fallback satisfies the shape classification. -/
theorem process_domain_shape (db : Db) (host : String) :
    ResolverShape (fun s => process_domain db host s) := by
  cases h : findTenantByDomain db host with
  | none => exact Or.inr (Or.inr (Or.inr fun s => by simp [process_domain, h]))
  | some t => exact Or.inr (Or.inr (Or.inl ⟨t, fun s => by simp [process_domain, h]⟩))

/-- The membership step satisfies the shape classification. -/
theorem process_membership_shape (u : AuthUser) :
    ResolverShape (fun s => process_membership u s) := by
  cases h : u.tenant_user with
  | none => exact Or.inr (Or.inl fun s => by simp [process_membership, h])
  | some t => exact Or.inl ⟨t, fun s => by simp [process_membership, h]⟩

/-- The post-header tail of the resolver satisfies the shape
classification. -/
theorem process_after_header_shape (db : Db) (user : Option AuthUser) (host : String) :
    ResolverShape (fun s => process_after_header db user host s) := by
  cases htest : findTenantByCode db "TEST" with
  | some t => exact Or.inl ⟨t, fun s => by simp [process_after_header, htest]⟩
  | none =>
    cases user with
    | none =>
      exact resolverShape_of_eq
        (fun s => by simp [process_after_header, htest])
        (process_domain_shape db host)
    | some u =>
      cases hauth : u.is_authenticated with
      | false =>
        exact resolverShape_of_eq
          (fun s => by simp [process_after_header, htest, hauth])
          (process_domain_shape db host)
      | true =>
        cases hc : u.tenant_id with
        | none =>
          exact resolverShape_of_eq
            (fun s => by simp [process_after_header, htest, hauth, hc])
            (process_membership_shape u)
        | some n =>
          by_cases hn : n = 0
          · exact resolverShape_of_eq
              (fun s => by simp [process_after_header, htest, hauth, hc, hn])
              (process_membership_shape u)
          · cases hfind : findTenantById db n with
            | some t =>
              exact Or.inl ⟨t, fun s => by
                simp [process_after_header, htest, hauth, hc, hn, hfind]⟩
            | none =>
              exact resolverShape_of_eq
                (fun s => by simp [process_after_header, htest, hauth, hc, hn, hfind])
                (process_membership_shape u)

/-- The full `process_request` satisfies the shape classification: every
completed resolution switches the connection to a schema that does not
depend on the incoming connection state, and the failure branch leaves
the state untouched. -/
theorem process_request_shape (db : Db) (req : Request) :
    ResolverShape (fun s => process_request db req s) := by
  cases hp : isPublicPath req.path_info with
  | true => exact Or.inr (Or.inl fun s => by simp [process_request, hp])
  | false =>
    cases hh : req.x_tenant_id with
    | none =>
      exact resolverShape_of_eq
        (fun s => by simp [process_request, hp, hh])
        (process_after_header_shape db req.user req.host)
    | some raw =>
      by_cases hraw : raw = ""
      · exact resolverShape_of_eq
          (fun s => by simp [process_request, hp, hh, hraw])
          (process_after_header_shape db req.user req.host)
      · cases hn : pyInt raw with
        | none =>
          exact resolverShape_of_eq
            (fun s => by simp [process_request, hp, hh, hraw, hn])
            (process_after_header_shape db req.user req.host)
        | some n =>
          cases hfind : findTenantById db n with
          | some t =>
            exact Or.inl ⟨t, fun s => by simp [process_request, hp, hh, hraw, hn, hfind]⟩
          | none =>
            exact resolverShape_of_eq
              (fun s => by simp [process_request, hp, hh, hraw, hn, hfind])
              (process_after_header_shape db req.user req.host)

/-! ### Claim theorems -/

/-- C1 (counterexample): the claim that the active schema pointer is
reset (to public, or cleared) at the end of every request is false: after
a request that resolved tenant 1, the end-of-request transition (no
`process_response`/`process_exception` hook exists) leaves the worker's
connection on tenant 1's schema with the thread-local tenant still
set. -/
theorem request_end_keeps_previous_tenant_pointer :
    end_of_request (process_request sampleDb reqOne publicState).1
      = (process_request sampleDb reqOne publicState).1 ∧
    (end_of_request (process_request sampleDb reqOne publicState).1).schema = "tenant_one" ∧
    (end_of_request (process_request sampleDb reqOne publicState).1).thread_tenant
      = some tenantOne ∧
    ¬ ((end_of_request (process_request sampleDb reqOne publicState).1).schema = "public" ∨
        (end_of_request (process_request sampleDb reqOne publicState).1).thread_tenant
          = none) := by
  decide

/-- C1 (amended): whenever a request's resolution completes (outcome
`ok`), the resulting active schema is determined by the registry and the
request alone — two runs from arbitrary prior connection states yield
the same schema, so a second request on the same worker is not
influenced by the first request's resolved tenant; but no reset happens
at the end of a request (`end_of_request` is the identity), so the
pointer persists until the next request's resolution overwrites it. -/
theorem resolved_schema_independent_of_prior_state
    (db : Db) (req : Request) (s1 s2 : ConnState)
    (h : (process_request db req s1).2 = Outcome.ok) :
    (process_request db req s2).2 = Outcome.ok ∧
    (process_request db req s1).1.schema = (process_request db req s2).1.schema ∧
    end_of_request (process_request db req s1).1 = (process_request db req s1).1 := by
  rcases process_request_shape db req with ⟨t, ht⟩ | hpub | ⟨t, ht⟩ | herr
  · have e1 : process_request db req s1
        = (connection_set_tenant t (set_current_tenant t s1), Outcome.ok) := ht s1
    have e2 : process_request db req s2
        = (connection_set_tenant t (set_current_tenant t s2), Outcome.ok) := ht s2
    rw [e1, e2]
    exact ⟨rfl, rfl, rfl⟩
  · have e1 : process_request db req s1 = (set_schema_to_public s1, Outcome.ok) := hpub s1
    have e2 : process_request db req s2 = (set_schema_to_public s2, Outcome.ok) := hpub s2
    rw [e1, e2]
    exact ⟨rfl, rfl, rfl⟩
  · have e1 : process_request db req s1 = (connection_set_tenant t s1, Outcome.ok) := ht s1
    have e2 : process_request db req s2 = (connection_set_tenant t s2, Outcome.ok) := ht s2
    rw [e1, e2]
    exact ⟨rfl, rfl, rfl⟩
  · have e1 : process_request db req s1 = (s1, Outcome.tenantNotFound) := herr s1
    rw [e1] at h
    exact Outcome.noConfusion h

/-- C1 (witness): the amended theorem applied to a concrete request
processed from a fresh state and from a state left stale by an earlier
request that resolved tenant 2. -/
theorem resolved_schema_independent_of_prior_state_witness :
    (process_request sampleDb reqOne staleState).2 = Outcome.ok ∧
    (process_request sampleDb reqOne publicState).1.schema
      = (process_request sampleDb reqOne staleState).1.schema :=
  ⟨(resolved_schema_independent_of_prior_state sampleDb reqOne publicState staleState
      (by decide)).1,
   (resolved_schema_independent_of_prior_state sampleDb reqOne publicState staleState
      (by decide)).2.1⟩

/-- C2: every request whose path starts with a configured public-path
prefix resolves to the public schema, regardless of any tenant header or
user on the request, and the remaining resolution steps are skipped. -/
theorem public_path_always_resolves_public
    (db : Db) (req : Request) (s : ConnState)
    (hp : isPublicPath req.path_info = true) :
    process_request db req s = (set_schema_to_public s, Outcome.ok) ∧
    (process_request db req s).1.schema = "public" := by
  have hmain : process_request db req s = (set_schema_to_public s, Outcome.ok) := by
    simp [process_request, hp]
  exact ⟨hmain, by rw [hmain]; rfl⟩

/-- C2 (witness): the public-path request `/api/v1/auth/login/` with an
invalid tenant header still resolves to the public schema. -/
theorem public_path_always_resolves_public_witness :
    isPublicPath reqPub.path_info = true ∧
    process_request sampleDb reqPub publicState
      = (set_schema_to_public publicState, Outcome.ok) :=
  ⟨by decide, (public_path_always_resolves_public sampleDb reqPub publicState (by decide)).1⟩

/-- C3: on a non-public path, a tenant header whose numeric value names
an existing tenant resolves that tenant: the active schema is switched
to the tenant's schema identifier and the thread-local current tenant is
set, before control returns to downstream handlers. -/
theorem valid_header_switches_to_tenant_schema
    (db : Db) (req : Request) (s : ConnState) (raw : String) (n : Int) (t : Tenant)
    (hp : isPublicPath req.path_info = false)
    (hh : req.x_tenant_id = some raw)
    (hn : pyInt raw = some n)
    (ht : findTenantById db n = some t) :
    process_request db req s
      = (connection_set_tenant t (set_current_tenant t s), Outcome.ok) ∧
    (process_request db req s).1.schema = t.schema_name ∧
    (process_request db req s).1.thread_tenant = some t := by
  have hraw : raw ≠ "" := by
    intro e
    subst e
    rw [show pyInt "" = none from by decide] at hn
    exact Option.noConfusion hn
  have hmain : process_request db req s
      = (connection_set_tenant t (set_current_tenant t s), Outcome.ok) := by
    simp [process_request, hp, hh, hraw, hn, ht]
  exact ⟨hmain, by rw [hmain]; rfl, by rw [hmain]; rfl⟩

/-- C3 (witness): `X-Tenant-ID: 1` on `/api/v1/patients/` resolves
tenant 1 and switches to its schema. -/
theorem valid_header_switches_to_tenant_schema_witness :
    (process_request sampleDb reqOne publicState).1.schema = tenantOne.schema_name ∧
    (process_request sampleDb reqOne publicState).1.thread_tenant = some tenantOne :=
  ⟨(valid_header_switches_to_tenant_schema sampleDb reqOne publicState "1" 1 tenantOne
      (by decide) rfl (by decide) (by decide)).2.1,
   (valid_header_switches_to_tenant_schema sampleDb reqOne publicState "1" 1 tenantOne
      (by decide) rfl (by decide) (by decide)).2.2⟩

/-- C4: on a non-public path, a malformed tenant header (not a valid
number) or one naming a non-existent tenant is treated exactly as an
absent header: resolution falls through to the next precedence step and
the header value alone never fails the request at that step. -/
theorem invalid_header_treated_as_absent
    (db : Db) (req : Request) (s : ConnState) (raw : String)
    (hp : isPublicPath req.path_info = false)
    (hh : req.x_tenant_id = some raw)
    (hbad : pyInt raw = none ∨ ∃ n, pyInt raw = some n ∧ findTenantById db n = none) :
    process_request db req s = process_after_header db req.user req.host s ∧
    process_request db req s = process_request db { req with x_tenant_id := none } s := by
  have hnone : process_request db { req with x_tenant_id := none } s
      = process_after_header db req.user req.host s := by
    simp [process_request, hp]
  have hmain : process_request db req s = process_after_header db req.user req.host s := by
    by_cases hraw : raw = ""
    · simp [process_request, hp, hh, hraw]
    · rcases hbad with hn | ⟨n, hn, hfind⟩
      · simp [process_request, hp, hh, hraw, hn]
      · simp [process_request, hp, hh, hraw, hn, hfind]
  exact ⟨hmain, hmain.trans hnone.symm⟩

/-- C4 (witness): the malformed header `X-Tenant-ID: abc` behaves
exactly as an absent header on a non-public path. -/
theorem invalid_header_treated_as_absent_witness :
    process_request sampleDb reqBad publicState
      = process_request sampleDb { reqBad with x_tenant_id := none } publicState :=
  (invalid_header_treated_as_absent sampleDb reqBad publicState "abc"
    (by decide) rfl (Or.inl (by decide))).2

/-- C5: on a non-public path, a tenant header naming a non-existent
tenant, with no authenticated user, no development `TEST` tenant and no
matching domain, ends in a tenant-not-found request error with the
connection state untouched — not a silent fallback to the public
schema.  The domain-resolution step is the parent middleware, modelled
from the spec. -/
theorem unknown_header_no_auth_yields_not_found
    (db : Db) (req : Request) (s : ConnState) (raw : String) (n : Int)
    (hp : isPublicPath req.path_info = false)
    (hh : req.x_tenant_id = some raw)
    (hn : pyInt raw = some n)
    (hmiss : findTenantById db n = none)
    (htest : findTenantByCode db "TEST" = none)
    (hu : req.user = none ∨ ∃ u, req.user = some u ∧ u.is_authenticated = false)
    (hd : findTenantByDomain db req.host = none) :
    process_request db req s = (s, Outcome.tenantNotFound) ∧
    (process_request db req s).1.schema = s.schema := by
  have hraw : raw ≠ "" := by
    intro e
    subst e
    rw [show pyInt "" = none from by decide] at hn
    exact Option.noConfusion hn
  have hmain : process_request db req s = (s, Outcome.tenantNotFound) := by
    rcases hu with hu | ⟨u, hu, hauth⟩
    · simp [process_request, process_after_header, process_domain, hp, hh, hraw, hn,
        hmiss, htest, hu, hd]
    · simp [process_request, process_after_header, process_domain, hp, hh, hraw, hn,
        hmiss, htest, hu, hauth, hd]
  exact ⟨hmain, by rw [hmain]⟩

/-- C5 (witness): the spec's worked example — `X-Tenant-ID: 7` with no
tenant 7, on `/api/v1/patients/`, unauthenticated, no domain match —
fails with tenant-not-found. -/
theorem unknown_header_no_auth_yields_not_found_witness :
    process_request sampleDb reqSeven publicState
      = (publicState, Outcome.tenantNotFound) :=
  (unknown_header_no_auth_yields_not_found sampleDb reqSeven publicState "7" 7
    (by decide) rfl (by decide) (by decide) (by decide) (Or.inl rfl) (by decide)).1

/-- C6 (counterexample): the claim that an attempted expired → active
transition is rejected before any state mutation is false:
`TenantViewSet.activate` on an expired tenant succeeds and mutates the
record to active, although expired → active is not in the spec's allowed
transition set (expired is terminal). -/
theorem activate_on_expired_tenant_mutates_state :
    tenantExpiredThree.subscription_status = SubscriptionStatus.expired ∧
    specAllowedTransition SubscriptionStatus.expired SubscriptionStatus.active = false ∧
    TenantViewSet.activate tenantExpiredThree ≠ tenantExpiredThree ∧
    (TenantViewSet.activate tenantExpiredThree).subscription_status
      = SubscriptionStatus.active := by
  decide

/-- C6 (amended): the lifecycle actions perform no transition check at
all — `activate`, `suspend` and `cancel` set the corresponding
subscription status unconditionally, whatever the prior status; in
particular expired → active succeeds via `activate`. -/
theorem lifecycle_actions_set_status_unconditionally (t : Tenant) :
    (TenantViewSet.activate t).subscription_status = SubscriptionStatus.active ∧
    (TenantViewSet.activate t).is_active = true ∧
    (TenantViewSet.suspend t).subscription_status = SubscriptionStatus.suspended ∧
    (TenantViewSet.cancel t).subscription_status = SubscriptionStatus.cancelled :=
  ⟨rfl, rfl, rfl, rfl⟩

/-- C7: schema provisioning is idempotent.  The utility
`create_tenant_schema` run twice equals it run once (the second run adds
no schema and no table, and completes normally since every statement is
IF NOT EXISTS); the management command run a second time returns
`alreadyExists` without touching the database state and without
error. -/
theorem schema_provisioning_idempotent
    (db : Db) (st st2 : PgState) (t : Tenant) (tid : Int)
    (h : findTenantById db tid = some t) :
    create_tenant_schema (create_tenant_schema st2 t).1 t = create_tenant_schema st2 t ∧
    cmd_create_handle db (cmd_create_handle db st tid).1 tid
      = ((cmd_create_handle db st tid).1, CreateCmdResult.alreadyExists) := by
  constructor
  · by_cases h1 : t.schema_name ∈ st2.schemata <;>
      by_cases h2 : (t.schema_name, "tenants_tenantuser") ∈ st2.tables <;>
        simp [create_tenant_schema, createSchemaIfNotExists, createTableIfNotExists, h1, h2]
  · by_cases hmem : t.schema_name ∈ st.schemata
    · simp [cmd_create_handle, h, hmem]
    · by_cases hmig : (t.schema_name, "migrated") ∈ st.tables <;>
        simp [cmd_create_handle, createTableIfNotExists, h, hmem, hmig]

/-- C7 (witness): creating tenant 1's schema twice through the
management command — the second call is an error-free no-op. -/
theorem schema_provisioning_idempotent_witness :
    findTenantById sampleDb 1 = some tenantOne ∧
    cmd_create_handle sampleDb (cmd_create_handle sampleDb emptyPg 1).1 1
      = ((cmd_create_handle sampleDb emptyPg 1).1, CreateCmdResult.alreadyExists) :=
  ⟨by decide,
   (schema_provisioning_idempotent sampleDb emptyPg emptyPg tenantOne 1 (by decide)).2⟩

/-- C8: a suspended or cancelled tenant is still resolved by the header
lookup exactly as an active one — the resolver performs the id lookup
with no filter on subscription status and switches to the tenant's
schema identifier. -/
theorem resolver_ignores_subscription_status
    (db : Db) (req : Request) (s : ConnState) (raw : String) (n : Int) (t : Tenant)
    (hp : isPublicPath req.path_info = false)
    (hh : req.x_tenant_id = some raw)
    (hn : pyInt raw = some n)
    (ht : findTenantById db n = some t)
    (_hstat : t.subscription_status = SubscriptionStatus.suspended ∨
      t.subscription_status = SubscriptionStatus.cancelled) :
    process_request db req s
      = (connection_set_tenant t (set_current_tenant t s), Outcome.ok) ∧
    (process_request db req s).1.schema = t.schema_name := by
  have hmain := valid_header_switches_to_tenant_schema db req s raw n t hp hh hn ht
  exact ⟨hmain.1, hmain.2.1⟩

/-- C8 (witness): the suspended tenant 2 is resolved by
`X-Tenant-ID: 2` and the schema is switched to `tenant_two`. -/
theorem resolver_ignores_subscription_status_witness :
    (process_request sampleDb reqTwo publicState).1.schema
      = tenantSuspendedTwo.schema_name :=
  (resolver_ignores_subscription_status sampleDb reqTwo publicState "2" 2
    tenantSuspendedTwo (by decide) rfl (by decide) (by decide) (Or.inl rfl)).2

/-- C9 (counterexample): the claim that the destroy operation requires an
explicit confirmation step (not a bare flag) is false: with the bare
`--force` flag the schema is dropped without any confirmation — even
when the operator's answer would have been `no`, which without the flag
cancels the operation. -/
theorem force_flag_drops_schema_without_confirmation :
    cmd_delete_handle sampleDb samplePg 1 true "no"
      = (dropSchemaCascade samplePg "tenant_one", DeleteCmdResult.dropped) ∧
    ¬ "tenant_one" ∈ (cmd_delete_handle sampleDb samplePg 1 true "no").1.schemata ∧
    (cmd_delete_handle sampleDb samplePg 1 false "no").2 = DeleteCmdResult.cancelled := by
  decide

/-- C9 (amended): without `--force` the delete command drops the schema
only after the operator confirms with `yes` (any other answer cancels,
leaving the state untouched); with `--force` the confirmation step is
skipped and the drop executes unconditionally. -/
theorem delete_schema_requires_confirmation_unless_forced
    (db : Db) (st : PgState) (tid : Int) (input : String) (t : Tenant)
    (h : findTenantById db tid = some t) :
    (strToLower input ≠ "yes" →
      cmd_delete_handle db st tid false input = (st, DeleteCmdResult.cancelled)) ∧
    (strToLower input = "yes" →
      cmd_delete_handle db st tid false input
        = (dropSchemaCascade st t.schema_name, DeleteCmdResult.dropped)) ∧
    cmd_delete_handle db st tid true input
      = (dropSchemaCascade st t.schema_name, DeleteCmdResult.dropped) := by
  refine ⟨fun hno => ?_, fun hyes => ?_, ?_⟩
  · simp [cmd_delete_handle, h, hno]
  · simp [cmd_delete_handle, h, hyes]
  · simp [cmd_delete_handle, h]

/-- C9 (witness): answering `no` without `--force` cancels the drop. -/
theorem delete_schema_requires_confirmation_unless_forced_witness :
    cmd_delete_handle sampleDb samplePg 1 false "no"
      = (samplePg, DeleteCmdResult.cancelled) :=
  (delete_schema_requires_confirmation_unless_forced sampleDb samplePg 1 "no" tenantOne
    (by decide)).1 (by decide)

/-- C10: `tenant_context(t)` sets the current tenant to `t` on entry,
and on exit — whether the body returned normally or raised — restores
the current tenant to the value it had before entry, leaving the
current-tenant state exactly as it found it; the body's result or
exception passes through unchanged. -/
theorem tenant_context_restores_previous_tenant {ε α : Type}
    (t : Option Tenant) (body : ConnState → ConnState × Except ε α) (s : ConnState) :
    (utils_set_current_tenant t s).tenant = t ∧
    (tenant_context_run t body s).1.tenant = s.tenant ∧
    (tenant_context_run t body s).2 = (body (utils_set_current_tenant t s)).2 := by
  refine ⟨?_, ?_, rfl⟩
  · cases t <;> rfl
  · show (utils_set_current_tenant (utils_get_current_tenant s)
        (body (utils_set_current_tenant t s)).1).tenant = s.tenant
    unfold utils_get_current_tenant
    cases hs : s.tenant <;> simp [utils_set_current_tenant]

end HMS
